import Mathlib

/-!
Verification of the detection-result aggregation and annotation pipeline of
src/app.py (Brain-Tumor-Detection-using-Computer-Vision).

The Python source is shallowly embedded: strings are Lean strings over the
same ASCII data, Python floats are modelled as exact rationals, numpy pixel
buffers become a structure holding dimensions and a pixel map, and the
drawing calls of OpenCV (cv2.rectangle, cv2.putText) are modelled by total
functions that recolor exactly the pixels of the drawn shape that fall
inside the image, reflecting the clipping OpenCV performs.  The dict
model.names becomes an association list whose lookup returns Option, so the
Python KeyError on an unknown class id surfaces as none.
-/

namespace BrainTumor

/-- Embedding of the Python str.lower() call used in annotate_and_extract
(line 108 of src/app.py); the repository only ever feeds it ASCII class
names, for which Char.toLower agrees with Python. -/
def pyLower (s : String) : String := String.mk (s.data.map Char.toLower)

/-- Helper for pyTitle: Python str.title() upper-cases a character exactly
when the previous character is not alphabetic, and lower-cases it
otherwise. -/
def titleAux : Bool → List Char → List Char
  | _, [] => []
  | prevAlpha, c :: cs =>
    (if prevAlpha then c.toLower else c.toUpper) :: titleAux c.isAlpha cs

/-- Embedding of the Python str.title() call used on line 145 of
src/app.py. -/
def pyTitle (s : String) : String := String.mk (titleAux false s.data)

/-- Decimal digit character of n modulo 10. -/
def digitChar (n : ℕ) : Char := Char.ofNat (48 + n % 10)

/-- Digit list of a positive natural in base ten; the first argument is
fuel bounding the number of digits, so the recursion is structural. -/
def ntoaAux : ℕ → ℕ → List Char
  | _, 0 => []
  | 0, _ => []
  | fuel + 1, n => ntoaAux fuel (n / 10) ++ [digitChar n]

/-- Decimal rendering of a natural number. -/
def ntoa (n : ℕ) : String :=
  if n = 0 then "0" else String.mk (ntoaAux n n)

/-- Embedding of the Python expression round(float(conf) * 100, 2) of
lines 83 and 109 of src/app.py, returning the rounded value in hundredths
(the float it models is the returned integer divided by 100).  Python
round rounds half to even.  The computation multiplies conf by 10000 and
rounds on the numerator and denominator with integer floor division, which
keeps the definition kernel-computable. -/
def round2c (conf : ℚ) : ℤ :=
  let n : ℤ := conf.num * 10000
  let d : ℤ := (conf.den : ℤ)
  let f : ℤ := n.ediv d
  let r2 : ℤ := 2 * (n - f * d)
  if r2 < d then f
  else if d < r2 then f + 1
  else if f % 2 = 0 then f else f + 1

/-- Fractional part (two decimal digits, 0 ≤ f < 100) rendered the way the
Python float repr renders it: 0 prints as "0", a multiple of ten drops the
trailing zero, anything else prints both digits. -/
def fracStr (f : ℕ) : String :=
  if f = 0 then "0"
  else if f % 10 = 0 then ntoa (f / 10)
  else ntoa (f / 10) ++ ntoa (f % 10)

/-- Embedding of the f-string interpolation of the rounded confidence
float (lines 83-84 and 109-111 of src/app.py): the Python repr of the
value round(float(conf) * 100, 2), with the float modelled as an exact
rational. -/
def fmtConf (conf : ℚ) : String :=
  let centi : ℕ := (round2c conf).toNat
  ntoa (centi / 100) ++ "." ++ fracStr (centi % 100)

/-- Label text built by the standalone detect_tumor function (lines 82-84
of src/app.py): the class name is used as stored in model.names, without
lower-casing. -/
def detect_tumor_label (class_name : String) (conf : ℚ) : String :=
  class_name ++ " (" ++ fmtConf conf ++ "%)"

/-- Label text built inside annotate_and_extract (lines 108-111 of
src/app.py): the class name is lower-cased before formatting. -/
def annotate_and_extract_label (class_name : String) (conf : ℚ) : String :=
  pyLower class_name ++ " (" ++ fmtConf conf ++ "%)"

/-- The static description table TUMOR_INFO of src/app.py (lines 11-16),
verbatim. -/
def TUMOR_INFO : List (String × String) :=
  [("glioma", "**Glioma** is a common type of tumor that originates from glial cells in the brain or spine. Gliomas can be low-grade (slow-growing) or high-grade (aggressive). Symptoms depend on the tumor's location and may include headaches, seizures, or changes in personality. Treatment often involves surgery, radiation therapy, and chemotherapy."),
   ("meningioma", "**Meningioma** is a tumor that arises from the meninges, the membranes that cover the brain and spinal cord. Most meningiomas are benign, but their location in the brain can still cause serious health problems. Common symptoms include headaches, vision problems, or seizures. Treatment may involve surgical removal or observation in non-symptomatic cases."),
   ("pituitary", "**Pituitary tumors** form in the pituitary gland, which controls several hormone-producing glands in the body. These tumors may cause hormonal imbalances affecting growth, metabolism, and reproductive functions. Treatment may include medication, hormone therapy, or surgery."),
   ("tumor", "**Brain Tumor** is a general term for abnormal growths of cells in the brain. Tumors can be benign (non-cancerous) or malignant (cancerous). They can affect brain function depending on their size and location. Common treatments include surgery, radiation, and chemotherapy.")]

/-- Embedding of the per-category information lookup of lines 142-145 of
src/app.py: present categories return the stored text, absent ones the
markdown placeholder built from str.title().  Total, never fails. -/
def describe (tumor_type : String) : String :=
  match List.lookup tumor_type TUMOR_INFO with
  | some t => t
  | none => "**" ++ pyTitle tumor_type ++ "**: Additional information will be added soon."

/-- Wall-clock value as read by datetime.now() for the purposes of
strftime with format %Y%m%d_%H%M%S. -/
structure Timestamp where
  year : ℕ
  month : ℕ
  day : ℕ
  hour : ℕ
  minute : ℕ
  second : ℕ

/-- Two-digit zero-padded decimal field, as produced by strftime for a
clock component below 100. -/
def pad2 (n : ℕ) : String := String.mk [digitChar (n / 10), digitChar n]

/-- Four-digit zero-padded decimal field, as produced by strftime %Y for a
year below 10000. -/
def pad4 (n : ℕ) : String :=
  String.mk [digitChar (n / 1000), digitChar (n / 100), digitChar (n / 10), digitChar n]

/-- Embedding of the download filename expression of line 152 of
src/app.py: the f-string around datetime.now().strftime with format
%Y%m%d_%H%M%S.  The timestamp is the only input, so the name is a
deterministic function of the clock value. -/
def suggested_filename (t : Timestamp) : String :=
  "tumor_result_" ++ pad4 t.year ++ pad2 t.month ++ pad2 t.day ++ "_"
    ++ pad2 t.hour ++ pad2 t.minute ++ pad2 t.second ++ ".jpg"

/-- An RGB pixel value. -/
abbrev Pixel := ℕ × ℕ × ℕ

/-- A numpy image buffer: dimensions plus a pixel map.  Coordinates are
integers because the box corners int(...) of a detection may be negative or
beyond the image. -/
@[ext]
structure Img where
  width : ℤ
  height : ℤ
  pix : ℤ → ℤ → Pixel

/-- One detection as unpacked on lines 105-107 of src/app.py: the four box
corners already coerced with int, the class id with int, and the raw model
confidence (a float in the unit interval, modelled as a rational). -/
structure Det where
  x1 : ℤ
  y1 : ℤ
  x2 : ℤ
  y2 : ℤ
  cls : ℕ
  conf : ℚ
deriving DecidableEq

/-- Coordinate lies inside the image buffer. -/
abbrev inImage (img : Img) (x y : ℤ) : Prop :=
  0 ≤ x ∧ x < img.width ∧ 0 ≤ y ∧ y < img.height

/-- Rectangle color (255, 0, 0) passed to cv2.rectangle on line 112. -/
def rectColor : Pixel := (255, 0, 0)

/-- Text color (255, 255, 255) passed to cv2.putText on line 113. -/
def textColor : Pixel := (255, 255, 255)

/-- Model of the glyph height in pixels of cv2.putText with
FONT_HERSHEY_SIMPLEX at fontScale 0.8 and thickness 2. -/
def textH : ℤ := 22

/-- Model of the advance width in pixels per character of cv2.putText with
FONT_HERSHEY_SIMPLEX at fontScale 0.8. -/
def charW : ℤ := 14

/-- Pixels of the thickness-2 rectangle outline drawn by cv2.rectangle for
the box of a detection; the outline lies within the closed box region. -/
abbrev onBorder (d : Det) (x y : ℤ) : Prop :=
  d.x1 ≤ x ∧ x ≤ d.x2 ∧ d.y1 ≤ y ∧ y ≤ d.y2 ∧
    (x ≤ d.x1 + 1 ∨ d.x2 - 1 ≤ x ∨ y ≤ d.y1 + 1 ∨ d.y2 - 1 ≤ y)

/-- Pixels of the text box drawn by cv2.putText for string s with origin
(ox, oy): the origin is the bottom-left corner of the text, which extends
up and to the right.  Glyph-level rasterization is abstracted as the full
text bounding box. -/
abbrev inText (ox oy : ℤ) (s : String) (x y : ℤ) : Prop :=
  s ≠ "" ∧ ox ≤ x ∧ x < ox + charW * s.length ∧ oy - textH ≤ y ∧ y ≤ oy

/-- Embedding of cv2.rectangle(img, (x1, y1), (x2, y2), color, 2): recolors
the outline pixels that fall inside the image (OpenCV clips), leaves every
other pixel and the dimensions unchanged, and never fails. -/
def drawRect (img : Img) (d : Det) : Img :=
  { img with
    pix := fun x y =>
      if inImage img x y ∧ onBorder d x y then rectColor else img.pix x y }

/-- Embedding of cv2.putText(img, s, (ox, oy), font, scale, color, 2):
recolors the text-box pixels that fall inside the image (OpenCV clips),
leaves every other pixel and the dimensions unchanged, and never fails. -/
def drawText (img : Img) (ox oy : ℤ) (s : String) : Img :=
  { img with
    pix := fun x y =>
      if inImage img x y ∧ inText ox oy s x y then textColor else img.pix x y }

/-- The local state of annotate_and_extract (lines 100-118 of src/app.py):
the untouched input buffer image_np, the working copy annotated (the code
starts from image_np.copy()), and the Python set found_classes. -/
structure St where
  image_np : Img
  annotated : Img
  found : Finset String

/-- The per-detection loop of annotate_and_extract (lines 104-116): resolve
the class id in model.names (a dict lookup, so an unknown id raises KeyError,
which the embedding reports as none for the whole call), lower-case the
name, draw the rectangle and the label at (x1, y1 - 10) on the working
copy, and add the lower-cased name to the set. -/
def annotateLoop (names : List (ℕ × String)) : St → List Det → Option St
  | s, [] => some s
  | s, d :: rest =>
    match List.lookup d.cls names with
    | none => none
    | some nm =>
        annotateLoop names
          { image_np := s.image_np
            annotated := drawText (drawRect s.annotated d) d.x1 (d.y1 - 10)
                (annotate_and_extract_label nm d.conf)
            found := insert (pyLower nm) s.found } rest

/-- Embedding of annotate_and_extract (lines 100-118 of src/app.py): start
from a fresh copy of the input buffer and the empty set, then run the
detection loop. -/
def annotate_and_extract (names : List (ℕ × String)) (image_np : Img)
    (dets : List Det) : Option St :=
  annotateLoop names { image_np := image_np, annotated := image_np, found := ∅ } dets

/-- Category set component of a pipeline result. -/
def foundOf (r : Option St) : Option (Finset String) := r.map St.found

/-- The normalized category name a detection resolves to: the model.names
entry for its class id, lower-cased. -/
def resolveName (names : List (ℕ × String)) (d : Det) : Option String :=
  (List.lookup d.cls names).map pyLower

/-- Fold step taking the running maximum of a sequence of rationals. -/
def omax (a : ℚ) : Option ℚ → Option ℚ
  | none => some a
  | some m => some (max m a)

/-- Modelled from the spec: the per-category maximum confidence of section
4.2 (the source annotate_and_extract returns only the category set and
keeps no confidence per category, so this derived quantity is taken from
the specification text: the maximum confidence among the detections that
resolve to the category, none when there is no such detection). -/
def maxConf (names : List (ℕ × String)) (c : String) (dets : List Det) : Option ℚ :=
  (dets.filterMap fun d =>
    match resolveName names d with
    | some nm => if nm = c then some d.conf else none
    | none => none).foldr omax none

/-- The closed box region of a detection shares no pixel with the image. -/
abbrev boxOutside (d : Det) (img : Img) : Prop :=
  d.x2 < 0 ∨ img.width ≤ d.x1 ∨ d.y2 < 0 ∨ img.height ≤ d.y1

/-- The text box of the label drawn for a detection shares no pixel with
the image. -/
abbrev labelOutside (d : Det) (img : Img) (s : String) : Prop :=
  s = "" ∨ d.y1 - 10 < 0 ∨ img.height ≤ d.y1 - 10 - textH ∨
    img.width ≤ d.x1 ∨ d.x1 + charW * s.length ≤ 0

/-- A 100 by 100 all-black test image. -/
def img0 : Img := { width := 100, height := 100, pix := fun _ _ => (0, 0, 0) }

/-- A 20 by 20 all-black test image. -/
def img20 : Img := { width := 20, height := 20, pix := fun _ _ => (0, 0, 0) }

/-- A one-entry label table. -/
def names1 : List (ℕ × String) := [(0, "glioma")]

/-- A label table whose three entries differ only in case and trailing
whitespace. -/
def names3 : List (ℕ × String) := [(0, "Glioma"), (1, "glioma "), (2, "GLIOMA")]

/-- In-bounds detection resolving to "Glioma". -/
def detA : Det := ⟨0, 20, 10, 30, 0, mkRat 1 2⟩

/-- In-bounds detection resolving to "glioma " (trailing space). -/
def detB : Det := ⟨0, 20, 10, 30, 1, mkRat 1 2⟩

/-- In-bounds detection resolving to "GLIOMA". -/
def detC : Det := ⟨0, 20, 10, 30, 2, mkRat 1 2⟩

/-- Detection whose class id 5 is outside the one-entry table names1. -/
def detBad : Det := ⟨0, 20, 10, 30, 5, mkRat 1 2⟩

/-- Detection whose box lies fully below img0 (rows 100 to 110 of a
100-row image) while its label baseline row 90 is inside. -/
def detOut : Det := ⟨10, 100, 20, 110, 0, mkRat 1 2⟩

/-- Detection whose box and label both lie fully below img20. -/
def detFar : Det := ⟨5, 60, 15, 70, 0, mkRat 1 2⟩

/-- The category-set component of the loop in closed form: some accumulated
set when every detection resolves, none as soon as one does not. -/
theorem loop_found (names : List (ℕ × String)) (l : List Det) :
    ∀ s : St, (annotateLoop names s l).map St.found =
      if ∀ d ∈ l, (resolveName names d).isSome then
        some (s.found ∪ (l.filterMap (resolveName names)).toFinset)
      else none := by
  induction l with
  | nil =>
    intro s
    simp [annotateLoop]
  | cons d rest ih =>
    intro s
    cases hl : List.lookup d.cls names with
    | none =>
      have hres : resolveName names d = none := by simp [resolveName, hl]
      simp [annotateLoop, hl, hres]
    | some nm =>
      have hres : resolveName names d = some (pyLower nm) := by simp [resolveName, hl]
      have hcond : (∀ e ∈ d :: rest, (resolveName names e).isSome) ↔
          ∀ e ∈ rest, (resolveName names e).isSome := by
        simp [List.forall_mem_cons, hres]
      have hF : ((d :: rest).filterMap (resolveName names)).toFinset =
          insert (pyLower nm) (rest.filterMap (resolveName names)).toFinset := by
        simp [List.filterMap_cons, hres]
      simp only [annotateLoop, hl]
      rw [ih]
      by_cases hrest : ∀ e ∈ rest, (resolveName names e).isSome
      · rw [if_pos hrest, if_pos (hcond.mpr hrest), hF, Finset.union_insert,
          Finset.insert_union]
      · rw [if_neg hrest, if_neg (fun hh => hrest (hcond.mp hh))]

/-- The category set returned by annotate_and_extract in closed form. -/
theorem found_eq (names : List (ℕ × String)) (img : Img) (l : List Det) :
    foundOf (annotate_and_extract names img l) =
      if ∀ d ∈ l, (resolveName names d).isSome then
        some ((l.filterMap (resolveName names)).toFinset)
      else none := by
  unfold foundOf annotate_and_extract
  rw [loop_found]
  simp

/-- The loop never writes to the input buffer image_np. -/
theorem loop_image_np (names : List (ℕ × String)) (l : List Det) :
    ∀ s : St, (annotateLoop names s l).map St.image_np =
      (annotateLoop names s l).map (fun _ => s.image_np) := by
  induction l with
  | nil => intro s; rfl
  | cons d rest ih =>
    intro s
    cases hl : List.lookup d.cls names with
    | none => simp [annotateLoop, hl]
    | some nm =>
      simp only [annotateLoop, hl]
      exact ih _

/-- The loop never changes the dimensions of the working copy. -/
theorem loop_dims (names : List (ℕ × String)) (l : List Det) :
    ∀ s : St, (annotateLoop names s l).map (fun st => (st.annotated.width, st.annotated.height)) =
      (annotateLoop names s l).map (fun _ => (s.annotated.width, s.annotated.height)) := by
  induction l with
  | nil => intro s; rfl
  | cons d rest ih =>
    intro s
    cases hl : List.lookup d.cls names with
    | none => simp [annotateLoop, hl]
    | some nm =>
      simp only [annotateLoop, hl]
      exact ih _

/-- A detection whose class id is missing from the table makes the whole
loop fail, whatever else the list contains. -/
theorem loop_unknown (names : List (ℕ × String)) (d : Det)
    (hu : List.lookup d.cls names = none) :
    ∀ l : List Det, d ∈ l → ∀ s : St, annotateLoop names s l = none := by
  intro l
  induction l with
  | nil => intro hd; cases hd
  | cons e rest ih =>
    intro hd s
    rcases List.mem_cons.mp hd with he | hrest
    · subst he
      simp [annotateLoop, hu]
    · cases hl : List.lookup e.cls names with
      | none => simp [annotateLoop, hl]
      | some nm =>
        simp only [annotateLoop, hl]
        exact ih hrest _

/-- The running-maximum fold step is left-commutative. -/
theorem omax_comm (a b : ℚ) (x : Option ℚ) : omax a (omax b x) = omax b (omax a x) := by
  cases x with
  | none => simp [omax, max_comm]
  | some m => simp [omax, max_assoc, max_comm a b]

/-- Folding the running maximum is invariant under permutation. -/
theorem foldr_omax_perm {l l' : List ℚ} (h : l.Perm l') :
    ∀ i : Option ℚ, l.foldr omax i = l'.foldr omax i := by
  induction h with
  | nil => intro i; rfl
  | cons x _ ih => intro i; simp [List.foldr_cons, ih i]
  | swap x y rest => intro i; exact omax_comm _ _ _
  | trans _ _ ih1 ih2 => intro i; rw [ih1, ih2]

/-- C5: for an empty detection sequence, annotate_and_extract succeeds,
the annotated image is pixel-identical to the input (the state holds the
very same buffer value), and the category set is empty. -/
theorem c5_empty (names : List (ℕ × String)) (img : Img) :
    annotate_and_extract names img [] =
      some { image_np := img, annotated := img, found := (∅ : Finset String) } := rfl

/-- C7: the rendered label text is the category followed by the rounded
percentage in parentheses; a detection with category meningioma and
confidence 0.8734 renders as "meningioma (87.34%)". -/
theorem c7_label_format :
    annotate_and_extract_label "meningioma" (mkRat 8734 10000) = "meningioma (87.34%)" ∧
    ∀ (category : String) (conf : ℚ),
      annotate_and_extract_label category conf =
        pyLower category ++ " (" ++ fmtConf conf ++ "%)" :=
  ⟨by decide, fun _ _ => rfl⟩

/-- C8: annotate_and_extract draws on a fresh copy of the buffer; whatever
the detections are, the image_np buffer of the state is still the input
buffer, unchanged, after the call. -/
theorem c8_no_mutation (names : List (ℕ × String)) (img : Img) (l : List Det) :
    (annotate_and_extract names img l).map St.image_np =
      (annotate_and_extract names img l).map (fun _ => img) :=
  loop_image_np names l _

/-- C9: the suggested download filename is tumor_result_YYYYMMDD_HHMMSS.jpg
built from the clock value passed in, a pure function of that value; in
particular its length is always 32 and the two sample instants render as
expected. -/
theorem c9_filename :
    suggested_filename ⟨2026, 10, 12, 9, 5, 3⟩ = "tumor_result_20261012_090503.jpg" ∧
    suggested_filename ⟨2026, 1, 2, 13, 40, 5⟩ = "tumor_result_20260102_134005.jpg" ∧
    ∀ t : Timestamp, (suggested_filename t).length = 32 := by
  refine ⟨by decide, by decide, fun t => ?_⟩
  simp [suggested_filename, pad2, pad4, String.length_append, String.length]

/-- C10: the two label-rendering paths of the source are numerically
identical duplicates; the label of annotate_and_extract equals the label of
detect_tumor applied to the lower-cased class name, and on a concrete
detection they differ only in the casing of the name. -/
theorem c10_label_paths_agree :
    (∀ (class_name : String) (conf : ℚ),
      annotate_and_extract_label class_name conf =
        detect_tumor_label (pyLower class_name) conf) ∧
    detect_tumor_label "Glioma" (mkRat 1 2) = "Glioma (50.0%)" ∧
    annotate_and_extract_label "Glioma" (mkRat 1 2) = "glioma (50.0%)" :=
  ⟨fun _ _ => rfl, by decide, by decide⟩

/-- C1 counterexample: aggregating the three detections whose resolved
class names are "Glioma", "glioma " and "GLIOMA" does not yield the single
category "glioma": the computed set has two elements, because the code
lower-cases but never trims whitespace. -/
theorem c1_counterexample :
    foundOf (annotate_and_extract names3 img0 [detA, detB, detC]) ≠
      some {"glioma"} := by
  intro h
  have h2 := congrArg (Option.map Finset.card) h
  have h3 : (foundOf (annotate_and_extract names3 img0 [detA, detB, detC])).map
      Finset.card = some 2 := by decide
  have h4 : (some ({"glioma"} : Finset String)).map Finset.card = some 1 := rfl
  rw [h3, h4] at h2
  exact absurd h2 (by decide)

/-- C1 amended: category names are normalized by lower-casing only, with no
whitespace trimming; "Glioma" and "GLIOMA" collapse to "glioma" while
"glioma " stays distinct, so the three-name sequence aggregates to the two
categories "glioma" and "glioma ", and the case-only pair aggregates to
exactly "glioma". -/
theorem c1_lower_only :
    foundOf (annotate_and_extract names3 img0 [detA, detB, detC]) =
      some {"glioma", "glioma "} ∧
    foundOf (annotate_and_extract names3 img0 [detA, detC]) =
      some {"glioma"} := by
  constructor
  · have h : foundOf (annotate_and_extract names3 img0 [detA, detB, detC]) =
        some (insert "glioma" (insert "glioma " (insert "glioma" (∅ : Finset String)))) := rfl
    rw [h]
    congr 1
    ext a
    simp [Finset.mem_insert]
    tauto
  · rfl

/-- C3 counterexample: a detection with a class id outside the label table
is not skipped: it makes the whole annotate_and_extract call fail, so the
in-table detection listed after it is discarded too, while alone that
detection would have produced the category glioma. -/
theorem c3_counterexample :
    foundOf (annotate_and_extract names1 img0 [detBad, detA]) = none ∧
    foundOf (annotate_and_extract names1 img0 [detA]) = some {"glioma"} := by
  constructor
  · rfl
  · rfl

/-- C3 amended: a detection whose class id is outside the label table makes
the dict lookup raise, aborting annotate_and_extract for the whole image:
the call returns no result at all, discarding every other detection of that
image, rather than skipping and continuing. -/
theorem c3_unknown_aborts (names : List (ℕ × String)) (img : Img)
    (l : List Det) (d : Det) (hd : d ∈ l)
    (hu : List.lookup d.cls names = none) :
    annotate_and_extract names img l = none :=
  loop_unknown names d hu l hd _

/-- Witness for c3_unknown_aborts at a concrete input. -/
theorem c3_unknown_aborts_witness :
    detBad ∈ [detBad, detA] ∧ List.lookup detBad.cls names1 = none ∧
    annotate_and_extract names1 img0 [detBad, detA] = none :=
  ⟨by decide, by decide,
    c3_unknown_aborts names1 img0 [detBad, detA] detBad (by decide) (by decide)⟩

/-- C6 counterexample: for the absent category unknown_x the resolver does
not return the bare placeholder claimed; the title is wrapped in markdown
bold markers. -/
theorem c6_counterexample :
    describe "unknown_x" ≠ "Unknown_X: Additional information will be added soon." := by
  decide

/-- C6 amended: for a category absent from TUMOR_INFO the resolver returns
the placeholder with the title-cased category wrapped in markdown bold
markers, and never fails; for a present category such as glioma it returns
the fixed stored text. -/
theorem c6_placeholder :
    describe "unknown_x" = "**Unknown_X**: Additional information will be added soon." ∧
    describe "glioma" = "**Glioma** is a common type of tumor that originates from glial cells in the brain or spine. Gliomas can be low-grade (slow-growing) or high-grade (aggressive). Symptoms depend on the tumor's location and may include headaches, seizures, or changes in personality. Treatment often involves surgery, radiation therapy, and chemotherapy." ∧
    ∀ c : String, List.lookup c TUMOR_INFO = none →
      describe c = "**" ++ pyTitle c ++ "**: Additional information will be added soon." := by
  refine ⟨by decide, rfl, fun c hc => ?_⟩
  unfold describe
  rw [hc]

/-- Witness for c6_placeholder at a concrete input. -/
theorem c6_placeholder_witness :
    List.lookup "unknown_x" TUMOR_INFO = none ∧
    describe "unknown_x" = "**" ++ pyTitle "unknown_x" ++ "**: Additional information will be added soon." :=
  ⟨by decide, c6_placeholder.2.2 "unknown_x" (by decide)⟩

/-- C2: aggregation is order-independent: permuting the detection sequence
changes neither the category set returned by annotate_and_extract (whatever
image either run annotates) nor the per-category maximum confidence. -/
theorem c2_perm_invariant (names : List (ℕ × String)) (img img' : Img)
    (l l' : List Det) (h : l.Perm l') :
    foundOf (annotate_and_extract names img l) =
      foundOf (annotate_and_extract names img' l') ∧
    ∀ c : String, maxConf names c l = maxConf names c l' := by
  constructor
  · rw [found_eq, found_eq]
    have hmem : (∀ d ∈ l, (resolveName names d).isSome) ↔
        ∀ d ∈ l', (resolveName names d).isSome := by
      constructor <;> intro H d hd
      · exact H d (h.mem_iff.mpr hd)
      · exact H d (h.mem_iff.mp hd)
    have hF : (l.filterMap (resolveName names)).toFinset =
        (l'.filterMap (resolveName names)).toFinset :=
      List.toFinset_eq_of_perm _ _ (h.filterMap _)
    rw [hF]
    exact if_congr hmem rfl rfl
  · intro c
    unfold maxConf
    exact foldr_omax_perm (h.filterMap _) none

/-- Witness for c2_perm_invariant at a concrete pair of permuted lists. -/
theorem c2_perm_invariant_witness :
    ([detA, detB] : List Det).Perm [detB, detA] ∧
    foundOf (annotate_and_extract names3 img0 [detA, detB]) =
      foundOf (annotate_and_extract names3 img0 [detB, detA]) ∧
    maxConf names3 "glioma" [detA, detB] = maxConf names3 "glioma" [detB, detA] :=
  ⟨by decide,
    (c2_perm_invariant names3 img0 img0 [detA, detB] [detB, detA] (by decide)).1,
    (c2_perm_invariant names3 img0 img0 [detA, detB] [detB, detA] (by decide)).2 "glioma"⟩

/-- C4 counterexample: a detection whose box lies fully outside the image
is not skipped by the annotator: its label, drawn unconditionally at
coordinates (x1, y1 - 10), paints pixels inside the image when the box sits
just below the bottom edge; pixel (10, 90) of the black 100 by 100 image
turns to the text color. -/
theorem c4_counterexample :
    boxOutside detOut img0 ∧
    (annotate_and_extract names1 img0 [detOut]).map (fun s => s.annotated.pix 10 90) =
      some textColor ∧
    img0.pix 10 90 ≠ textColor :=
  ⟨by decide, by decide, by decide⟩

/-- C4 amended: annotating never raises and never changes the image
dimensions, and a detection whose box region and label text box both lie
fully outside the image is drawn as a no-op: the annotated image is
pixel-identical to the input.  A box fully outside the image is however not
always skipped, because its label at (x1, y1 - 10) may still fall inside
(see the counterexample). -/
theorem c4_amended_clip :
    (∀ (names : List (ℕ × String)) (img : Img) (l : List Det),
      (annotate_and_extract names img l).map (fun s => (s.annotated.width, s.annotated.height)) =
        (annotate_and_extract names img l).map (fun _ => (img.width, img.height))) ∧
    (∀ (names : List (ℕ × String)) (img : Img) (d : Det) (nm : String),
      List.lookup d.cls names = some nm →
      boxOutside d img →
      labelOutside d img (annotate_and_extract_label nm d.conf) →
      (annotate_and_extract names img [d]).map St.annotated = some img) := by
  constructor
  · intro names img l
    exact loop_dims names l _
  · intro names img d nm hl hbox hlab
    have hR : drawRect img d = img := by
      refine Img.ext rfl rfl ?_
      funext x y
      simp only [drawRect]
      split_ifs with hc
      · exfalso
        rcases hc with ⟨⟨hx0, hxW, hy0, hyH⟩, hx1, hx2, hy1, hy2, _⟩
        rcases hbox with h | h | h | h <;> omega
      · rfl
    have hT : drawText img d.x1 (d.y1 - 10) (annotate_and_extract_label nm d.conf) = img := by
      refine Img.ext rfl rfl ?_
      funext x y
      simp only [drawText]
      split_ifs with hc
      · exfalso
        rcases hc with ⟨⟨hx0, hxW, hy0, hyH⟩, hs, hx1, hx2, hy1, hy2⟩
        simp only [labelOutside, textH, charW] at hlab
        simp only [textH, charW] at hx2 hy1
        rcases hlab with h | h | h | h | h
        · exact hs h
        all_goals omega
      · rfl
    unfold annotate_and_extract
    simp only [annotateLoop, hl]
    show some (drawText (drawRect img d) d.x1 (d.y1 - 10)
        (annotate_and_extract_label nm d.conf)) = some img
    rw [hR, hT]

/-- Witness for the skip part of c4_amended_clip at a concrete input. -/
theorem c4_amended_clip_witness :
    List.lookup detFar.cls names1 = some "glioma" ∧
    boxOutside detFar img20 ∧
    labelOutside detFar img20 (annotate_and_extract_label "glioma" detFar.conf) ∧
    (annotate_and_extract names1 img20 [detFar]).map St.annotated = some img20 :=
  ⟨by decide, by decide, by decide,
    c4_amended_clip.2 names1 img20 detFar "glioma" (by decide) (by decide) (by decide)⟩

end BrainTumor
